import Mathlib

/-!
# Shallow embedding of the smudge SWIM-style membership protocol core

This file embeds the membership/failure-detection core of the `smudge` gossip
library (Go) into Lean 4 and proves properties of the specification against it.

Conventions of the embedding:
* Go `uint32` values (heartbeats, millisecond clocks) are `Nat`; all heartbeat
  arithmetic in the source is guarded away from wraparound, and where a `uint32`
  conversion or multiplication can overflow we write the `% 2^32` explicitly.
* Go `int8` (the per-node `emitCounter`) is an `Int` normalized through an
  explicit two's-complement wrap `int8wrap`.
* A `*Node` pointer is identified by the node's address `(ip, port)`, which is
  the registry key in the source (`Node.Address()` is `"ip:port"`).
* Nondeterministic inputs (random node selection, wall-clock time, the RTT
  estimator's current n-sigma value) are parameters of the functions.
* Side effects (log lines, listener callbacks, UDP transmissions) are returned
  as explicit data.
-/

namespace Smudge

/-- An address `"ip:port"`: the registry key. IPv4 is abstracted to a `Nat`. -/
abbrev Addr := Nat × Nat

/-- Node statuses. From the source's usage of `StatusUnknown`, `StatusAlive`,
`StatusDead` and the wire-only `StatusForwardTo` (spec §3: the minimal design
uses exactly these four). -/
inductive NodeStatus where
  | statusUnknown
  | statusAlive
  | statusDead
  | statusForwardTo
deriving DecidableEq, Repr

/-- Two's-complement wrap of an `Int` into the Go `int8` range [-128, 127]. -/
def int8wrap (x : Int) : Int :=
  (x + 128) % 256 - 128

/-- A member node. Fields are the ones the source reads and writes:
`ip`, `port`, `timestamp` (ms), `status`, `heartbeat` (uint32),
`emitCounter` (int8), `pingMillis` (last RTT or a sentinel). -/
structure Node where
  ip : Nat
  port : Nat
  timestamp : Nat
  status : NodeStatus
  heartbeat : Nat
  emitCounter : Int
  pingMillis : Int
deriving DecidableEq, Repr

/-- `Node.Address()`: the `"ip:port"` registry key. -/
def Node.address (n : Node) : Addr :=
  (n.ip, n.port)

/-- The observable effects of one `updateNodeStatus` call, together with the
node's new field values. -/
structure UpdateResult where
  /-- The node after the call (the source mutates `*Node` in place). -/
  node : Node
  /-- Whether `doStatusUpdate` (the listener notification) fired. -/
  notified : Bool
  /-- Whether the "Decreasing known node heartbeat value" warning was logged. -/
  loggedDecrease : Bool
  /-- Whether the node was added to the recently-updated set
  (`updatedNodes.add`, only when not already present). -/
  addedToUpdated : Bool
  /-- Whether the dead-node retry entry for this address was deleted. -/
  clearedDeadRetry : Bool
deriving DecidableEq, Repr

/-- `updateNodeStatus(node, status, heartbeat)` from the registry file.
Parameters record the ambient state the call reads: `now` is
`GetNowInMillis()`, `emitCnt` is the current `emitCount()` value, and
`alreadyInUpdated` is `updatedNodes.contains(node)`.

The whole body is guarded by `node.status != status`; inside, a heartbeat
decrease is logged as a warning but the assignment `node.heartbeat = heartbeat`
is performed regardless. -/
def updateNodeStatus (now : Nat) (emitCnt : Int) (alreadyInUpdated : Bool)
    (node : Node) (status : NodeStatus) (heartbeat : Nat) : UpdateResult :=
  if node.status ≠ status then
    { node := { node with
        timestamp := now
        status := status
        emitCounter := int8wrap emitCnt
        heartbeat := heartbeat }
      notified := true
      loggedDecrease := decide (heartbeat < node.heartbeat)
      addedToUpdated := !alreadyInUpdated
      clearedDeadRetry := decide (status ≠ NodeStatus.statusDead) }
  else
    { node := node
      notified := false
      loggedDecrease := false
      addedToUpdated := false
      clearedDeadRetry := false }

/-- The per-member body of `updateStatusesFromMessage`: how one piggybacked
member record `(m.status, m.heartbeat)` is merged against the registry's
current node `m.node`. Returns the node after the step and whether
`AddNode(m.node)` was invoked.

From the source: records older than the node's recorded heartbeat are dropped;
`StatusForwardTo` records are ignored; a `StatusDead` record about this host's
own address is ignored ("Don't tell ME I'm dead."); everything else goes
through `updateNodeStatus` followed by `AddNode`. -/
def updateStatusMerge (selfAddr : Addr) (now : Nat) (emitCnt : Int)
    (alreadyInUpdated : Bool) (node : Node) (mstatus : NodeStatus)
    (mheartbeat : Nat) : Node × Bool :=
  if mheartbeat < node.heartbeat then
    (node, false)
  else
    match mstatus with
    | NodeStatus.statusForwardTo => (node, false)
    | NodeStatus.statusDead =>
        if node.address ≠ selfAddr then
          ((updateNodeStatus now emitCnt alreadyInUpdated node mstatus mheartbeat).node,
           true)
        else
          (node, false)
    | _ =>
        ((updateNodeStatus now emitCnt alreadyInUpdated node mstatus mheartbeat).node,
         true)

/-- The heartbeat-synchronization step at the top of `receiveMessageUDP`:
`if msg.senderHeartbeat > 0 && msg.senderHeartbeat-1 > currentHeartbeat
 { currentHeartbeat = msg.senderHeartbeat - 1 }`.
Both counters are `uint32`; the guard `> 0` keeps the subtraction away from
wraparound, so `Nat` subtraction coincides with the Go computation. -/
def syncHeartbeat (currentHeartbeat senderHeartbeat : Nat) : Nat :=
  if senderHeartbeat > 0 ∧ senderHeartbeat - 1 > currentHeartbeat then
    senderHeartbeat - 1
  else
    currentHeartbeat

/-- `maxDeadNodeRetries` from the registry file. -/
def maxDeadNodeRetries : Int := 10

/-- A `deadNodeCounter` entry: `{retry, retryCountdown}` (Go `int`s). -/
structure DeadNodeCounter where
  retry : Int
  retryCountdown : Int
deriving DecidableEq, Repr

/-- What the failure-detector round does with a Dead node on one visit. -/
inductive DeadVisitOutcome where
  /-- `retryCountdown` still positive after the decrement: `continue` — the
  node is skipped this round. -/
  | skip
  /-- `retry` exceeded `maxDeadNodeRetries`: `RemoveNode(node)` was called,
  the retry entry deleted, and the loop `continue`d. -/
  | removed
  /-- Fell through the backoff: the node is pinged this round. -/
  | ping
deriving DecidableEq, Repr

/-- The Dead-node branch of the main loop in `Begin`: look up (or create as
`{retry: 1, retryCountdown: 2}`) the node's `deadNodeCounter`, decrement the
countdown; if it is still positive, skip; otherwise increment `retry`, set
`retryCountdown = int(math.Pow(2, retry))`, and once `retry` exceeds
`maxDeadNodeRetries` delete the entry and remove the node from the registry.

`entry` is the current `deadNodeRetries.m[node.Address()]` lookup (`none` when
absent); the returned `Option` is the entry afterwards (`none` = deleted).
`math.Pow(2, retry)` converted through `int` is exactly `2 ^ retry` for the
nonnegative retries that occur (`retry` starts at 1 and is only incremented). -/
def deadNodeVisit (entry : Option DeadNodeCounter) :
    Option DeadNodeCounter × DeadVisitOutcome :=
  let dnc := entry.getD { retry := 1, retryCountdown := 2 }
  let dnc := { dnc with retryCountdown := dnc.retryCountdown - 1 }
  if dnc.retryCountdown ≤ 0 then
    let dnc := { dnc with retry := dnc.retry + 1 }
    let dnc := { dnc with retryCountdown := (2 : Int) ^ dnc.retry.toNat }
    if dnc.retry > maxDeadNodeRetries then
      (none, DeadVisitOutcome.removed)
    else
      (some dnc, DeadVisitOutcome.ping)
  else
    (some dnc, DeadVisitOutcome.skip)

/-- The kind of probe a pending ACK is waiting on (`pendingAckType`). -/
inductive PendingAckType where
  | packPing
  | packPingReq
  | packNFP
deriving DecidableEq, Repr

/-- A `pendingAck` table entry. The `*Node` fields are represented by the
nodes' addresses; `callback` is a nil-able pointer in the source (nil for
direct-PING entries), hence an `Option`. -/
structure PendingAck where
  startTime : Nat
  node : Addr
  callback : Option Addr
  callbackCode : Nat
  packType : PendingAckType
deriving DecidableEq, Repr

/-- `(*pendingAck).elapsed()`: `GetNowInMillis() - startTime` (uint32). -/
def PendingAck.elapsed (a : PendingAck) (now : Nat) : Nat :=
  now - a.startTime

/-- Go's conversion `uint32(f)` of a nonnegative `float64`: truncation toward
zero, reduced mod 2^32. The estimator's n-sigma value (a float) is modelled by
the rational it denotes. -/
def goUint32OfFloat (q : ℚ) : Nat :=
  ⌊q⌋.toNat % 2 ^ 32

/-- The deadline an entry of kind `pt` is compared against in one sweep of
`startTimeoutCheckLoop`, given the estimator's current
`pingdata.nSigma(timeoutToleranceSigmas)` value `nSigma3`:
`timeoutMillis := uint32(pingdata.nSigma(timeoutToleranceSigmas))`, doubled
(as uint32) for `packPingReq`. -/
def timeoutDeadline (nSigma3 : ℚ) (pt : PendingAckType) : Nat :=
  let timeoutMillis := goUint32OfFloat nSigma3
  if pt = PendingAckType.packPingReq then
    2 * timeoutMillis % 2 ^ 32
  else
    timeoutMillis

/-- One observable action taken by the timeout sweep on an expired entry. -/
inductive SweepAction where
  /-- `go doForwardOnTimeout(pack)` was spawned for a timed-out direct PING
  of `target`: fan out PINGREQs (or mark `target` Dead if no relays exist). -/
  | forwardPingReqs (target : Addr)
  /-- `updateNodeStatus(x, StatusDead, currentHeartbeat)` was called on the
  node at address `a`. -/
  | markDead (a : Addr)
  /-- `x.pingMillis = PingTimedOut` was assigned on the node at address `a`. -/
  | setPingTimedOut (a : Addr)
deriving DecidableEq, Repr

/-- The body of `startTimeoutCheckLoop` for a single pending-ack entry during
one sweep: compare `pack.elapsed()` against the per-kind deadline; on expiry
take the per-kind action and delete the entry.

Returns the entry afterwards (`none` = `delete(pendingAcks.m, k)` ran) and the
actions taken. `contains` is `knownNodes.contains` by address. In the source a
timed-out PINGREQ/NFP entry dereferences `pack.callback`; such entries always
carry one (both constructors set it to a non-nil node), and a nil callback
would be a nil-pointer fault, modelled here as no action. -/
def sweepEntry (nSigma3 : ℚ) (now : Nat) (contains : Addr → Bool)
    (pack : PendingAck) : Option PendingAck × List SweepAction :=
  let elapsed := pack.elapsed now
  let timeoutMillis := timeoutDeadline nSigma3 pack.packType
  if elapsed > timeoutMillis then
    let acts :=
      match pack.packType with
      | PendingAckType.packPing => [SweepAction.forwardPingReqs pack.node]
      | PendingAckType.packPingReq =>
          match pack.callback with
          | some cb =>
              if contains cb then
                [SweepAction.markDead cb, SweepAction.setPingTimedOut cb]
              else []
          | none => []
      | PendingAckType.packNFP =>
          if contains pack.node then
            SweepAction.markDead pack.node ::
              (match pack.callback with
               | some cb => [SweepAction.setPingTimedOut cb]
               | none => [])
          else []
    (none, acts)
  else
    (some pack, [])

/-- Decrement `n.emitCounter` (a Go `int8`, so with two's-complement wrap) on
the registry node whose address is `a`: the effect of one `emitCounter--` on
the `*Node` behind that address. -/
def decEmit (reg : List Node) (a : Addr) : List Node :=
  reg.map fun n =>
    if n.address = a then { n with emitCounter := int8wrap (n.emitCounter - 1) }
    else n

/-- A user broadcast: only its `emitCounter` matters here. -/
structure Broadcast where
  emitCounter : Int
deriving DecidableEq, Repr

/-- The state `transmitVerbGenericUDP` touches, plus what went on the wire. -/
structure TransmitResult where
  /-- The registry after the call (emit counters decremented). -/
  reg : List Node
  /-- The broadcast after the call (`nil` stays `nil`). -/
  broadcast : Option Broadcast
  /-- The addresses of `msg.members`, in order of attachment. -/
  members : List Addr
  /-- Whether the broadcast payload was attached (`emitCounter > 0`). -/
  broadcastAttached : Bool
deriving DecidableEq, Repr

/-- `transmitVerbGenericUDP(node, forwardTo, verb, code)`: the member
attachment and counter bookkeeping of one outbound datagram.

`updateNodes` stands for the randomly selected update members (the
`getRandomUpdatedNodes` result, or the `knownNodes.getRandomNodes` fallback
when that is empty); `broadcast` is `getBroadcastToEmit()`. The source:
attaches the optional ForwardTo member, then for each selected node attaches
it and runs `n.emitCounter--`; attaches the broadcast when its counter is
positive and decrements it unconditionally; writes the datagram; and then
runs `m.node.emitCounter--` once more for every member of `msg.members`. -/
def transmitVerbGenericUDP (reg : List Node) (forwardTo : Option Addr)
    (updateNodes : List Addr) (broadcast : Option Broadcast) : TransmitResult :=
  let members := (forwardTo.elim [] fun a => [a]) ++ updateNodes
  let reg := updateNodes.foldl decEmit reg
  let attached := broadcast.elim false fun b => decide (b.emitCounter > 0)
  let broadcast := broadcast.map fun b => { b with emitCounter := b.emitCounter - 1 }
  let reg := members.foldl decEmit reg
  { reg := reg
    broadcast := broadcast
    members := members
    broadcastAttached := attached }

/-- The shared state `receiveVerbAckUDP` can touch: the pending-ack table
(keyed by `address : heartbeat`), the RTT estimator's sample window
(`pingdata`), and the node registry. -/
structure GossipState where
  pendingAcks : List ((Addr × Nat) × PendingAck)
  pingWindow : List Nat
  reg : List Node
deriving DecidableEq, Repr

/-- Look up a pending-ack entry by its `(address, heartbeat)` key. -/
def lookupPack (table : List ((Addr × Nat) × PendingAck)) (key : Addr × Nat) :
    Option PendingAck :=
  (table.find? fun e => e.1 = key).map Prod.snd

/-- Delete a pending-ack entry by key (`delete(pendingAcks.m, key)`). -/
def erasePack (table : List ((Addr × Nat) × PendingAck)) (key : Addr × Nat) :
    List ((Addr × Nat) × PendingAck) :=
  table.filter fun e => e.1 ≠ key

/-- `(*Node).Touch()`: refresh the node's timestamp to now. -/
def touchNode (reg : List Node) (a : Addr) (now : Nat) : List Node :=
  reg.map fun n => if n.address = a then { n with timestamp := now } else n

/-- `notePingResponseTime(pack)`: record the elapsed time as the probed
node's `pingMillis` and feed it (floored at 10 ms) to the estimator window.
The window's bounded-buffer eviction lives in the estimator's own file; here
only the fact that a sample is added matters, so `add` is a cons. -/
def notePingResponseTime (st : GossipState) (now : Nat) (pack : PendingAck) :
    GossipState :=
  let elapsedMillis := pack.elapsed now
  let reg := st.reg.map fun n =>
    if n.address = pack.node then { n with pingMillis := (elapsedMillis : Int) }
    else n
  let elapsedMillis := if elapsedMillis < 10 then 10 else elapsedMillis
  { st with reg := reg, pingWindow := elapsedMillis :: st.pingWindow }

/-- `receiveVerbAckUDP(msg)`: resolve the `(sender address, heartbeat)` key in
the pending-ack table. On a hit: touch the sender, then either relay an ACK to
the entry's callback (returned as `(callback, callbackCode)` transmissions) or
feed the RTT to the estimator, and delete the entry. On a miss: nothing.

`sender`/`senderHeartbeat` are `msg.sender.Address()` and
`msg.senderHeartbeat`. -/
def receiveVerbAckUDP (st : GossipState) (now : Nat) (sender : Addr)
    (senderHeartbeat : Nat) : GossipState × List (Addr × Nat) :=
  let key := (sender, senderHeartbeat)
  match lookupPack st.pendingAcks key with
  | none => (st, [])
  | some pack =>
      let st := { st with reg := touchNode st.reg sender now }
      let (st, acks) :=
        match pack.callback with
        | some cb => (st, [(cb, pack.callbackCode)])
        | none => (notePingResponseTime st now pack, [])
      ({ st with pendingAcks := erasePack st.pendingAcks key }, acks)

/-- A wire member record as `receiveVerbForwardUDP` reads it: the referenced
node (resolved by the codec), the asserted status, and the heartbeat. -/
structure MemberRecord where
  node : Addr
  status : NodeStatus
  heartbeat : Nat
deriving DecidableEq, Repr

/-- What `receiveVerbForwardUDP` did when it returned normally. -/
inductive ForwardOutcome where
  /-- A `pendingAck` of kind NFP was stored under `key` and a
  NonForwardingPing was transmitted to `target` with `code`. -/
  | transmitNFP (key : Addr × Nat) (pack : PendingAck) (target : Addr) (code : Nat)
  /-- The guard failed: `return nil` with no action. -/
  | noAction
deriving DecidableEq, Repr

/-- `receiveVerbForwardUDP(msg)` for an incoming PingRequest: guarded by
`len(msg.members) >= 0 && msg.members[0].status == StatusForwardTo`. The
index expression `msg.members[0]` is evaluated whenever the first conjunct
holds; on an empty member list it is out of bounds (a runtime panic),
modelled as `none`. `sender` is `msg.sender`, `now` is `GetNowInMillis()`. -/
def receiveVerbForwardUDP (members : List MemberRecord) (sender : Addr)
    (now : Nat) : Option ForwardOutcome :=
  if members.length ≥ 0 then
    match members.get? 0 with
    | none => none
    | some member =>
        if member.status = NodeStatus.statusForwardTo then
          let node := member.node
          let code := member.heartbeat
          let key := (node, code)
          let pack : PendingAck :=
            { startTime := now
              node := node
              callback := some sender
              callbackCode := code
              packType := PendingAckType.packNFP }
          some (ForwardOutcome.transmitNFP key pack node code)
        else
          some ForwardOutcome.noAction
  else
    some ForwardOutcome.noAction

/-- What `doForwardOnTimeout(pack)` does. -/
inductive ForwardFanout where
  /-- `transmitVerbForwardUDP(n, pack.node, currentHeartbeat)` for every relay
  `n` in the filtered selection: the PINGREQ fan-out. -/
  | pingReqs (relays : List Addr) (target : Addr)
  /-- No relay available: `updateNodeStatus(pack.node, StatusDead,
  currentHeartbeat)`. -/
  | markTargetDead (target : Addr)
deriving DecidableEq, Repr

/-- `doForwardOnTimeout(pack)`: on a direct-PING timeout, fan out indirect
ping requests for `pack.node` through the selected relays, or — when
`getTargetNodes` returns no one — mark the target Dead directly. `targets` is
the `getTargetNodes(pingRequestCount(), thisHost, pack.node)` selection. -/
def doForwardOnTimeout (targets : List Addr) (packNode : Addr) : ForwardFanout :=
  if targets = [] then
    ForwardFanout.markTargetDead packNode
  else
    ForwardFanout.pingReqs targets packNode

/-! ## Sample values used by witnesses and counterexamples -/

/-- A sample Alive node with heartbeat 5. -/
def sampleNode : Node :=
  { ip := 1, port := 2, timestamp := 0, status := NodeStatus.statusAlive
    heartbeat := 5, emitCounter := 0, pingMillis := -1 }

/-- A sample Alive node with emit counter 4. -/
def sampleNodeB : Node :=
  { ip := 7, port := 9, timestamp := 0, status := NodeStatus.statusAlive
    heartbeat := 4, emitCounter := 4, pingMillis := -1 }

/-! ## Claims -/

/-- C9: when `n.status == s`, `updateNodeStatus(n, s, h)` is a no-op — no
listener notification fires, the node is not (re-)added to the updated set, no
dead-retry entry is cleared, and the node's timestamp, status, emit counter
and heartbeat are all unchanged. -/
theorem updateNodeStatus_noop (now : Nat) (emitCnt : Int) (alreadyInUpdated : Bool)
    (node : Node) (s : NodeStatus) (h : Nat) (hs : node.status = s) :
    updateNodeStatus now emitCnt alreadyInUpdated node s h =
      { node := node, notified := false, loggedDecrease := false
        addedToUpdated := false, clearedDeadRetry := false } := by
  unfold updateNodeStatus
  simp [hs]

/-- Witness for C9: a same-status update on a concrete node is a no-op. -/
theorem updateNodeStatus_noop_witness :
    updateNodeStatus 77 3 false sampleNode NodeStatus.statusAlive 9 =
      { node := sampleNode, notified := false, loggedDecrease := false
        addedToUpdated := false, clearedDeadRetry := false } :=
  updateNodeStatus_noop 77 3 false sampleNode NodeStatus.statusAlive 9 (by decide)

/-- C1 counterexample: `updateNodeStatus` invoked with a heartbeat lower than
the node's current heartbeat (as the timeout checker's Dead-marking can do)
logs the decrease but does NOT drop the update: the node's heartbeat changes
from 5 to 3. -/
theorem updateNodeStatus_applies_lower_heartbeat :
    (updateNodeStatus 100 3 false sampleNode NodeStatus.statusDead 3).loggedDecrease
      = true ∧
    (updateNodeStatus 100 3 false sampleNode NodeStatus.statusDead 3).node.heartbeat
      = 3 ∧
    sampleNode.heartbeat = 5 := by
  decide

/-- C1 (amended): a heartbeat decrease is dropped only by the message-merge
path — `updateStatusesFromMessage` skips a member record whose heartbeat is
below the node's recorded heartbeat, leaving the node unchanged — while
`updateNodeStatus` itself, whenever the status differs, logs a warning about
the decrease but applies the given (lower) heartbeat. -/
theorem heartbeat_decrease_dropped_only_in_merge (selfAddr : Addr) (now : Nat)
    (emitCnt : Int) (b : Bool) (node : Node) (ms : NodeStatus) (mh : Nat)
    (s : NodeStatus) (h : Nat)
    (hdrop : mh < node.heartbeat) (hst : node.status ≠ s) :
    updateStatusMerge selfAddr now emitCnt b node ms mh = (node, false) ∧
    (updateNodeStatus now emitCnt b node s h).node.heartbeat = h ∧
    (updateNodeStatus now emitCnt b node s h).loggedDecrease
      = decide (h < node.heartbeat) := by
  refine ⟨?_, ?_, ?_⟩
  · unfold updateStatusMerge
    simp [hdrop]
  · unfold updateNodeStatus
    simp [hst]
  · unfold updateNodeStatus
    simp [hst]

/-- Witness for C1's amended theorem, at a concrete node with heartbeat 5:
a member record with heartbeat 2 is dropped, and a direct Dead-update with
heartbeat 3 applies the decrease and logs it. -/
theorem heartbeat_decrease_dropped_only_in_merge_witness :
    updateStatusMerge (9, 9) 100 3 false sampleNode NodeStatus.statusAlive 2
      = (sampleNode, false) ∧
    (updateNodeStatus 100 3 false sampleNode NodeStatus.statusDead 3).node.heartbeat
      = 3 ∧
    (updateNodeStatus 100 3 false sampleNode NodeStatus.statusDead 3).loggedDecrease
      = decide (3 < sampleNode.heartbeat) :=
  heartbeat_decrease_dropped_only_in_merge (9, 9) 100 3 false sampleNode
    NodeStatus.statusAlive 2 NodeStatus.statusDead 3 (by decide) (by decide)

/-- C6: an incoming member record asserting `StatusDead` about this host's own
address is ignored by the status-merge step: the node (in particular its
status and heartbeat) is unchanged and `AddNode` is not invoked. -/
theorem self_dead_record_ignored (selfAddr : Addr) (now : Nat) (emitCnt : Int)
    (b : Bool) (node : Node) (mh : Nat) (hself : node.address = selfAddr) :
    updateStatusMerge selfAddr now emitCnt b node NodeStatus.statusDead mh
      = (node, false) := by
  unfold updateStatusMerge
  by_cases hd : mh < node.heartbeat
  · simp [hd]
  · simp [hd, hself]

/-- Witness for C6: a Dead record about the self node (even with a larger
heartbeat) leaves it unchanged. -/
theorem self_dead_record_ignored_witness :
    updateStatusMerge (1, 2) 100 3 false sampleNode NodeStatus.statusDead 50
      = (sampleNode, false) :=
  self_dead_record_ignored (1, 2) 100 3 false sampleNode 50 (by decide)

/-- C5: `current_heartbeat` is advanced to `sender_heartbeat − 1` if and only
if `sender_heartbeat > 0` and `sender_heartbeat − 1 > current_heartbeat`:
whenever the guard holds the result IS `sender_heartbeat − 1`, whenever it
fails the counter is left exactly as it was; in particular a sender heartbeat
of 0 never advances it, and it is never lowered. -/
theorem syncHeartbeat_spec (ch sh : Nat) :
    (0 < sh → ch < sh - 1 → syncHeartbeat ch sh = sh - 1) ∧
    (¬(0 < sh ∧ ch < sh - 1) → syncHeartbeat ch sh = ch) ∧
    syncHeartbeat ch 0 = ch ∧
    ch ≤ syncHeartbeat ch sh := by
  unfold syncHeartbeat
  refine ⟨?_, ?_, ?_, ?_⟩ <;> split <;> omega

/-- Witness for C5 at concrete inputs: with current 5 and sender 7 the guard
holds and the counter advances to 6; with sender 3 the guard fails and it
stays 5; with sender 0 it stays 5. -/
theorem syncHeartbeat_spec_witness :
    syncHeartbeat 5 7 = 6 ∧ syncHeartbeat 5 3 = 5 ∧ syncHeartbeat 5 0 = 5 :=
  ⟨(syncHeartbeat_spec 5 7).1 (by decide) (by decide),
   (syncHeartbeat_spec 5 3).2.1 (by decide),
   (syncHeartbeat_spec 5 0).2.2.1⟩

/-- C4: the failure detector's exponential backoff for a Dead node: the
countdown is decremented; while it stays positive the node is skipped;
otherwise `retry` is incremented and the countdown re-armed to `2^retry`; and
once `retry` exceeds `maxDeadNodeRetries` (10) the node is removed from the
registry and its retry entry deleted on that visit. -/
theorem deadNodeVisit_backoff (dnc : DeadNodeCounter) :
    (dnc.retryCountdown - 1 > 0 →
      deadNodeVisit (some dnc) =
        (some { dnc with retryCountdown := dnc.retryCountdown - 1 },
         DeadVisitOutcome.skip)) ∧
    (dnc.retryCountdown - 1 ≤ 0 → dnc.retry + 1 ≤ maxDeadNodeRetries →
      deadNodeVisit (some dnc) =
        (some { retry := dnc.retry + 1
                retryCountdown := (2 : Int) ^ (dnc.retry + 1).toNat },
         DeadVisitOutcome.ping)) ∧
    (dnc.retryCountdown - 1 ≤ 0 → dnc.retry + 1 > maxDeadNodeRetries →
      deadNodeVisit (some dnc) = (none, DeadVisitOutcome.removed)) := by
  simp only [deadNodeVisit, Option.getD_some]
  refine ⟨?_, ?_, ?_⟩
  · intro h1
    rw [if_neg (by simpa using by omega)]
  · intro h1 h2
    rw [if_pos (by simpa using h1), if_neg (by simpa using by omega)]
  · intro h1 h2
    rw [if_pos (by simpa using h1), if_pos (by simpa using h2)]

/-- Witness for C4: a Dead node whose counter stands at `retry = 10`,
`countdown = 1` is removed (and its entry deleted) on this visit; one with
`retry = 3`, `countdown = 1` is re-armed to `(4, 16)` and pinged; one with
`countdown = 5` is skipped with the countdown at 4. -/
theorem deadNodeVisit_backoff_witness :
    deadNodeVisit (some { retry := 10, retryCountdown := 1 })
      = (none, DeadVisitOutcome.removed) ∧
    deadNodeVisit (some { retry := 3, retryCountdown := 1 })
      = (some { retry := 4, retryCountdown := 16 }, DeadVisitOutcome.ping) ∧
    deadNodeVisit (some { retry := 1, retryCountdown := 5 })
      = (some { retry := 1, retryCountdown := 4 }, DeadVisitOutcome.skip) :=
  ⟨(deadNodeVisit_backoff { retry := 10, retryCountdown := 1 }).2.2
      (by decide) (by decide),
   (deadNodeVisit_backoff { retry := 3, retryCountdown := 1 }).2.1
      (by decide) (by decide),
   (deadNodeVisit_backoff { retry := 1, retryCountdown := 5 }).1 (by decide)⟩

/-- C3: an expired pending-ack entry is deleted from the table in every case,
and the per-kind action is taken: an expired Ping entry spawns the PINGREQ
fan-out (`doForwardOnTimeout`, which transmits ping requests whenever relays
exist); an expired PingReq entry marks the callback (originator) node Dead;
an expired NFP entry marks the target node Dead. -/
theorem sweepEntry_expired (q : ℚ) (now : Nat) (contains : Addr → Bool)
    (targets : List Addr) (pack : PendingAck) (cb : Addr)
    (hcb : pack.callback = some cb)
    (hexp : pack.elapsed now > timeoutDeadline q pack.packType) :
    (sweepEntry q now contains pack).1 = none ∧
    (pack.packType = PendingAckType.packPing →
      (sweepEntry q now contains pack).2
        = [SweepAction.forwardPingReqs pack.node]) ∧
    (pack.packType = PendingAckType.packPingReq → contains cb = true →
      (sweepEntry q now contains pack).2
        = [SweepAction.markDead cb, SweepAction.setPingTimedOut cb]) ∧
    (pack.packType = PendingAckType.packNFP → contains pack.node = true →
      (sweepEntry q now contains pack).2
        = [SweepAction.markDead pack.node, SweepAction.setPingTimedOut cb]) ∧
    (targets ≠ [] →
      doForwardOnTimeout targets pack.node
        = ForwardFanout.pingReqs targets pack.node) := by
  refine ⟨?_, ?_, ?_, ?_, ?_⟩
  · simp only [sweepEntry]
    rw [if_pos hexp]
  · intro hpt
    simp only [sweepEntry]
    rw [if_pos hexp]
    simp [hpt]
  · intro hpt hc
    simp only [sweepEntry]
    rw [if_pos hexp]
    simp [hpt, hcb, hc]
  · intro hpt hc
    simp only [sweepEntry]
    rw [if_pos hexp]
    simp [hpt, hcb, hc]
  · intro ht
    simp [doForwardOnTimeout, ht]

/-- Witness for C3 on a concrete expired PingReq entry (estimator n-sigma
value 10, so its deadline is 20 ms and 100 ms have elapsed): the entry is
deleted and its callback is marked Dead; the fan-out of a nonempty relay
selection transmits ping requests. -/
theorem sweepEntry_expired_witness :
    (sweepEntry 10 100 (fun _ => true)
        { startTime := 0, node := (3, 3), callback := some (4, 4)
          callbackCode := 9, packType := PendingAckType.packPingReq }).1
      = none ∧
    (sweepEntry 10 100 (fun _ => true)
        { startTime := 0, node := (3, 3), callback := some (4, 4)
          callbackCode := 9, packType := PendingAckType.packPingReq }).2
      = [SweepAction.markDead (4, 4), SweepAction.setPingTimedOut (4, 4)] ∧
    doForwardOnTimeout [(5, 5)] (3, 3)
      = ForwardFanout.pingReqs [(5, 5)] (3, 3) := by
  have h := sweepEntry_expired 10 100 (fun _ => true) [(5, 5)]
    { startTime := 0, node := (3, 3), callback := some (4, 4)
      callbackCode := 9, packType := PendingAckType.packPingReq }
    (4, 4) rfl
    (by norm_num [PendingAck.elapsed, timeoutDeadline, goUint32OfFloat]; decide)
  exact ⟨h.1, h.2.2.1 rfl rfl, h.2.2.2.2 (by simp)⟩

/-- The estimator value `21/2` has floor 10 and ceiling 11: used to separate
the source's uint32 truncation from the spec's `ceil`. -/
theorem floor_ceil_half21 : ⌊(21 / 2 : ℚ)⌋ = 10 ∧ ⌈(21 / 2 : ℚ)⌉ = 11 := by
  constructor
  · rw [Int.floor_eq_iff]
    norm_num
  · rw [Int.ceil_eq_iff]
    norm_num

/-- C7 counterexample: with the estimator reporting n-sigma `21/2 = 10.5` ms,
the sweep's deadline for a Ping entry is 10 ms — the uint32 truncation — while
`ceil(10.5)` is 11, so the deadline is not `ceil(estimator.n_sigma(3.0))`. -/
theorem timeoutDeadline_not_ceil :
    timeoutDeadline (21 / 2 : ℚ) PendingAckType.packPing = 10 ∧
    ⌈(21 / 2 : ℚ)⌉ = 11 ∧
    timeoutDeadline (21 / 2 : ℚ) PendingAckType.packPing ≠ (⌈(21 / 2 : ℚ)⌉).toNat := by
  have h := floor_ceil_half21
  refine ⟨?_, h.2, ?_⟩
  · simp [timeoutDeadline, goUint32OfFloat, h.1]
  · simp [timeoutDeadline, goUint32OfFloat, h.1, h.2]

/-- C7 (amended): the deadline a pending-ack entry is compared against is the
float64→uint32 truncation of `estimator.n_sigma(3.0)` — its floor, not its
ceiling, for the nonnegative values that occur — for Ping and NFP entries, and
exactly twice that value (reduced mod 2^32) for PingReq entries. -/
theorem timeoutDeadline_truncates (q : ℚ) (hq : 0 ≤ q) (h2 : 2 * ⌊q⌋ < 2 ^ 32) :
    timeoutDeadline q PendingAckType.packPing = (⌊q⌋).toNat ∧
    timeoutDeadline q PendingAckType.packNFP = (⌊q⌋).toNat ∧
    timeoutDeadline q PendingAckType.packPingReq
      = 2 * timeoutDeadline q PendingAckType.packPing := by
  have h0 : (0 : ℤ) ≤ ⌊q⌋ := Int.le_floor.mpr (by exact_mod_cast hq)
  refine ⟨?_, ?_, ?_⟩ <;> simp [timeoutDeadline, goUint32OfFloat] <;> omega

/-- Witness for C7's amended theorem at the concrete estimator value
`21/2 = 10.5`: deadlines 10, 10 and 20. -/
theorem timeoutDeadline_truncates_witness :
    timeoutDeadline (21 / 2 : ℚ) PendingAckType.packPing = 10 ∧
    timeoutDeadline (21 / 2 : ℚ) PendingAckType.packNFP = 10 ∧
    timeoutDeadline (21 / 2 : ℚ) PendingAckType.packPingReq
      = 2 * timeoutDeadline (21 / 2 : ℚ) PendingAckType.packPing := by
  have h := timeoutDeadline_truncates (21 / 2 : ℚ) (by norm_num)
    (by rw [floor_ceil_half21.1]; norm_num)
  rw [floor_ceil_half21.1] at h
  exact ⟨h.1, h.2.1, h.2.2⟩

/-- C2 (the failing input evaluated): a node selected as an update member of
one outbound datagram has its `emitCounter` decremented TWICE — once by
`n.emitCounter--` when it is attached, and once more by the
`m.node.emitCounter--` loop over `msg.members` after the write — so a counter
of 4 drops to 2 after a single emission, not to 3. A node attached only as
the ForwardTo member is decremented once (4 to 3 here), since it is skipped
by the attachment loop but visited by the members loop. -/
theorem transmit_emitCounter_double_decrement :
    (transmitVerbGenericUDP [sampleNodeB] none [(7, 9)] none).reg
      = [{ sampleNodeB with emitCounter := 2 }] ∧
    (transmitVerbGenericUDP [sampleNodeB] none [(7, 9)] none).members
      = [(7, 9)] ∧
    (transmitVerbGenericUDP [sampleNodeB] (some (7, 9)) [] none).reg
      = [{ sampleNodeB with emitCounter := 3 }] ∧
    sampleNodeB.emitCounter = 4 := by
  decide

/-- C8: the guard of `receiveVerbForwardUDP` is `len(msg.members) >= 0`,
which holds for every member list; consequently on an empty member list the
evaluation of `msg.members[0]` inside the guard is out of bounds and the
handler has no normal result (a runtime panic, `none` in this embedding). -/
theorem receiveVerbForwardUDP_guard (members : List MemberRecord)
    (sender : Addr) (now : Nat) :
    members.length ≥ 0 ∧
    (members = [] → receiveVerbForwardUDP members sender now = none) := by
  refine ⟨Nat.zero_le _, ?_⟩
  intro h
  subst h
  rfl

/-- Witness for C8: a PingRequest with no members panics the handler. -/
theorem receiveVerbForwardUDP_guard_witness :
    ([] : List MemberRecord).length ≥ 0 ∧
    receiveVerbForwardUDP [] (0, 0) 0 = none :=
  ⟨(receiveVerbForwardUDP_guard [] (0, 0) 0).1,
   (receiveVerbForwardUDP_guard [] (0, 0) 0).2 rfl⟩

/-- C10: an ACK whose `(sender address, heartbeat)` key has no pending-ack
entry is ignored: the pending-ack table, the estimator's sample window and
the registry (hence every node's `pingMillis` and timestamp) are unchanged,
and no ACK is relayed to any callback. -/
theorem receiveVerbAckUDP_unknown_key (st : GossipState) (now : Nat)
    (sender : Addr) (hb : Nat)
    (h : lookupPack st.pendingAcks (sender, hb) = none) :
    receiveVerbAckUDP st now sender hb = (st, []) := by
  unfold receiveVerbAckUDP
  simp [h]

/-- A sample gossip state holding one pending PING entry for address `(3,3)`
at heartbeat 7. -/
def sampleState : GossipState :=
  { pendingAcks := [(((3, 3), 7),
      { startTime := 0, node := (3, 3), callback := none, callbackCode := 0
        packType := PendingAckType.packPing })]
    pingWindow := [50]
    reg := [sampleNode] }

/-- Witness for C10: an ACK from `(8,8)` (no entry under that key) leaves the
state untouched and relays nothing. -/
theorem receiveVerbAckUDP_unknown_key_witness :
    receiveVerbAckUDP sampleState 100 (8, 8) 7 = (sampleState, []) :=
  receiveVerbAckUDP_unknown_key sampleState 100 (8, 8) 7 (by decide)

end Smudge
